import Mathlib

/-
  Verification development for the `FrappeDB` database accessor
  (src/db/index.ts of frappe-js-sdk).

  The class is a thin request/response mapping layer over an HTTP
  transport.  We embed it shallowly: JSON values are an inductive type,
  the transport is an explicit function from requests to responses, and
  each operation of the class becomes a Lean function that builds the
  request from its arguments, applies the transport, and maps the
  response (success unwrapping / error normalisation) exactly as the
  TypeScript source does.
-/

namespace FrappeSDK

/-- JSON values as exchanged with the server.  Objects are association
lists of fields; a parsed JSON body has unique keys. -/
inductive Json where
  | null
  | bool (b : Bool)
  | num (n : Int)
  | str (s : String)
  | arr (elems : List Json)
  | obj (fields : List (String × Json))
deriving Repr

/-- First-match lookup in an association list (keys of parsed JSON
objects are unique, so this agrees with JS property access). -/
def lookupField {α : Type} : List (String × α) → String → Option α
  | [], _ => none
  | (k, v) :: rest, key => if k = key then some v else lookupField rest key

/-- Removal of a key's binding from an association list. -/
def eraseKey {α : Type} : List (String × α) → String → List (String × α)
  | [], _ => []
  | (k, v) :: rest, key => if k = key then eraseKey rest key else (k, v) :: eraseKey rest key

/-- JS property assignment `o.k = v` / an override entry in an object
literal: any old binding for the key is dropped and the new one bound
(parsed JSON objects have unique keys, so only lookup matters). -/
def setField {α : Type} (fs : List (String × α)) (key : String) (v : α) : List (String × α) :=
  eraseKey fs key ++ [(key, v)]

/-- JS property access `o.k` on a JSON value: a field of an object,
`undefined` (here `none`) otherwise. -/
def Json.getField : Json → String → Option Json
  | .obj fs, key => lookupField fs key
  | _, _ => none

/-- The own enumerable fields contributed by `{...v}` in JS: an object
spreads its fields, arrays and strings spread index entries, primitives
spread nothing. -/
def Json.spreadFields : Json → List (String × Json)
  | .obj fs => fs
  | .arr l => (List.range l.length).zip l |>.map (fun p => (toString p.1, p.2))
  | .str s => (List.range s.length).zip s.toList |>.map (fun p => (toString p.1, .str (String.singleton p.2)))
  | _ => []

/-- The JS nullish coalescing operator `x ?? d`: `d` when `x` is
`undefined` (absent) or `null`, otherwise `x`. -/
def jsCoalesce : Option Json → Json → Json
  | none, d => d
  | some .null, d => d
  | some v, _ => v

/-- One hexadecimal digit, lower case. -/
def hexDigit (n : Nat) : Char :=
  if n < 10 then Char.ofNat (48 + n) else Char.ofNat (87 + n)

/-- Four-digit hexadecimal rendering used by `JSON.stringify` for
control characters. -/
def hex4 (n : Nat) : String :=
  String.mk [hexDigit (n / 4096 % 16), hexDigit (n / 256 % 16), hexDigit (n / 16 % 16), hexDigit (n % 16)]

/-- Escaping of one character inside a `JSON.stringify` string. -/
def escapeChar (c : Char) : String :=
  if c = '"' then "\\\""
  else if c = '\\' then "\\\\"
  else if c = '\n' then "\\n"
  else if c = '\t' then "\\t"
  else if c = '\r' then "\\r"
  else if c.toNat = 8 then "\\b"
  else if c.toNat = 12 then "\\f"
  else if c.toNat < 32 then "\\u" ++ hex4 c.toNat
  else String.singleton c

/-- Escaping of a whole string for `JSON.stringify`. -/
def escapeStr (s : String) : String :=
  String.join (s.toList.map escapeChar)

mutual

/-- Compact serialisation matching `JSON.stringify` on the values the
client sends (no `undefined` members occur in them). -/
def Json.stringify : Json → String
  | .null => "null"
  | .bool b => cond b "true" "false"
  | .num n => toString n
  | .str s => "\"" ++ escapeStr s ++ "\""
  | .arr l => "[" ++ stringifyElems l ++ "]"
  | .obj fs => "\x7b" ++ stringifyMembers fs ++ "\x7d"

/-- Comma-separated serialisation of array elements. -/
def stringifyElems : List Json → String
  | [] => ""
  | [x] => Json.stringify x
  | x :: rest => Json.stringify x ++ "," ++ stringifyElems rest

/-- Comma-separated serialisation of object members. -/
def stringifyMembers : List (String × Json) → String
  | [] => ""
  | [(k, v)] => "\"" ++ escapeStr k ++ "\":" ++ Json.stringify v
  | (k, v) :: rest => "\"" ++ escapeStr k ++ "\":" ++ Json.stringify v ++ "," ++ stringifyMembers rest

end

/-- HTTP method of a request issued by the client. -/
inductive Method where
  | get
  | post
  | put
  | delete
deriving Repr, DecidableEq

/-- A request as handed to the axios transport: method, URL path (the
template-literal result), query parameters (a `none` value is a JS
`undefined` member, which axios omits from the query string), and an
optional JSON body. -/
structure Request where
  method : Method
  path : String
  params : List (String × Option Json)
  body : Option Json
deriving Repr

/-- A settled HTTP response: status code, status line text, parsed JSON
body. -/
structure Response where
  status : Nat
  statusText : String
  body : Json
deriving Repr

/-- The transport collaborator: a deterministic oracle mapping each
request to the response the server gives it. -/
def Transport : Type := Request → Response

/-- Axios' default `validateStatus`: a response is a success exactly
when its status is in [200, 300). -/
def is2xx (s : Nat) : Bool := 200 ≤ s && s < 300

/-- The normalised error object each catch-block throws:
`\x7b...error.response.data, httpStatus, httpStatusText, message,
exception: data.exception ?? data.exc_type ?? ''\x7d`.  The
operation-specific `message` value is passed in by each operation. -/
def errorResp (body : Json) (status : Nat) (statusText : String) (message : Json) : Json :=
  .obj (setField (setField (setField (setField body.spreadFields
    "httpStatus" (.num status))
    "httpStatusText" (.str statusText))
    "message" message)
    "exception" (jsCoalesce (body.getField "exception") (jsCoalesce (body.getField "exc_type") (.str ""))))

/-- A JS `string | null | undefined` value as it reaches a template
literal. -/
inductive JSStr where
  | undef
  | jsnull
  | str (s : String)
deriving Repr, DecidableEq

/-- Template-literal interpolation of such a value: `String(null)` is
"null" and `String(undefined)` is "undefined". -/
def JSStr.interp : JSStr → String
  | .undef => "undefined"
  | .jsnull => "null"
  | .str s => s

/-- One filter tuple (field, operator, value), serialised as a JSON
3-element array. -/
abbrev DocFilter : Type := String × String × Json

/-- JSON form of a filter list, as `JSON.stringify` sees it. -/
def filtersToJson (fs : List DocFilter) : Json :=
  .arr (fs.map (fun f => .arr [.str f.1, .str f.2.1, f.2.2]))

/-- JSON form of a projected field list. -/
def fieldsToJson (fs : List String) : Json :=
  .arr (fs.map .str)

/-- The `orderBy` member of `GetDocListArgs`: field name and optional
direction. -/
structure OrderByArg where
  field : String
  order : Option String
deriving Repr

/-- Arguments of `getDocList` (shape used by src/db/index.ts when
destructuring `args`); every member is optional. -/
structure GetDocListArgs where
  fields : Option (List String) := none
  filters : Option (List DocFilter) := none
  orFilters : Option (List DocFilter) := none
  orderBy : Option OrderByArg := none
  limit : Option Int := none
  limit_start : Option Int := none
  groupBy : Option String := none
  asDict : Option Bool := none

/-- Result type of every operation: rejection carries the normalised
error object; fulfilment carries the value (`none` models a JS
`undefined` result, e.g. `res.data.data` on a body without `data`). -/
def DBResult : Type := Except Json (Option Json)

/-- Request built by `getDoc`: `GET /api/resource/{doctype}/{docname}`
(the parameter defaults to the empty string). -/
def getDocRequest (doctype : String) (docname : String) : Request :=
  { method := .get, path := "/api/resource/" ++ doctype ++ "/" ++ docname,
    params := [], body := none }

/-- Operation `getDoc`: issue the GET, unwrap `res.data.data` on success, throw
the normalised error with the fetch-document default message. -/
def getDoc (t : Transport) (doctype : String) (docname : String := "") : DBResult :=
  let resp := t (getDocRequest doctype docname)
  if is2xx resp.status then .ok (resp.body.getField "data")
  else .error (errorResp resp.body resp.status resp.statusText
    (.str "There was an error while fetching the document."))

/-- Query parameters built by `getDocList`: the empty object when
`args` is absent; otherwise the eight-key object of the source, where
absent `fields`/`filters`/`orFilters`/`groupBy`/`limit`/`limit_start`
become `undefined` members, `order_by` is always the flattened
"field direction" string (empty when `orderBy` is absent, direction
defaulting to "asc"), and `as_dict` defaults to true. -/
def getDocListParams (args : Option GetDocListArgs) : List (String × Option Json) :=
  match args with
  | none => []
  | some a =>
    let orderByString : String :=
      match a.orderBy with
      | some ob => ob.field ++ " " ++ ob.order.getD "asc"
      | none => ""
    [("fields", a.fields.map (fun f => .str (Json.stringify (fieldsToJson f)))),
     ("filters", a.filters.map (fun f => .str (Json.stringify (filtersToJson f)))),
     ("or_filters", a.orFilters.map (fun f => .str (Json.stringify (filtersToJson f)))),
     ("order_by", some (.str orderByString)),
     ("group_by", a.groupBy.map .str),
     ("limit", a.limit.map .num),
     ("limit_start", a.limit_start.map .num),
     ("as_dict", some (.bool (a.asDict.getD true)))]

/-- Request built by `getDocList`: `GET /api/resource/{doctype}` with
the marshalled query parameters. -/
def getDocListRequest (doctype : String) (args : Option GetDocListArgs) : Request :=
  { method := .get, path := "/api/resource/" ++ doctype,
    params := getDocListParams args, body := none }

/-- Operation `getDocList`: issue the GET, unwrap `res.data.data` on success,
throw the normalised error with the fetch-documents default message. -/
def getDocList (t : Transport) (doctype : String) (args : Option GetDocListArgs := none) : DBResult :=
  let resp := t (getDocListRequest doctype args)
  if is2xx resp.status then .ok (resp.body.getField "data")
  else .error (errorResp resp.body resp.status resp.statusText
    (.str "There was an error while fetching the documents."))

/-- Request built by `createDoc`: `POST /api/resource/{doctype}` with
`\x7b...value\x7d` as body. -/
def createDocRequest (doctype : String) (value : Json) : Request :=
  { method := .post, path := "/api/resource/" ++ doctype,
    params := [], body := some (.obj value.spreadFields) }

/-- Operation `createDoc`: issue the POST, unwrap `res.data.data` on success; on
failure the message prefers the server's own `message` field. -/
def createDoc (t : Transport) (doctype : String) (value : Json) : DBResult :=
  let resp := t (createDocRequest doctype value)
  if is2xx resp.status then .ok (resp.body.getField "data")
  else .error (errorResp resp.body resp.status resp.statusText
    (jsCoalesce (resp.body.getField "message")
      (.str "There was an error while creating the document.")))

/-- Request built by `updateDoc`: `PUT /api/resource/{doctype}/{docname}`
with `\x7b...value\x7d` as body; `docname` is interpolated as a template
literal, so `null` renders as "null". -/
def updateDocRequest (doctype : String) (docname : JSStr) (value : Json) : Request :=
  { method := .put, path := "/api/resource/" ++ doctype ++ "/" ++ docname.interp,
    params := [], body := some (.obj value.spreadFields) }

/-- Operation `updateDoc`: issue the PUT, unwrap `res.data.data` on success; on
failure the message prefers the server's own `message` field. -/
def updateDoc (t : Transport) (doctype : String) (docname : JSStr) (value : Json) : DBResult :=
  let resp := t (updateDocRequest doctype docname value)
  if is2xx resp.status then .ok (resp.body.getField "data")
  else .error (errorResp resp.body resp.status resp.statusText
    (jsCoalesce (resp.body.getField "message")
      (.str "There was an error while updating the document.")))

/-- Request built by `deleteDoc`: `DELETE /api/resource/{doctype}/{docname}`;
`docname` may be omitted (JS `undefined`, rendering as "undefined") or
null (rendering as "null"). -/
def deleteDocRequest (doctype : String) (docname : JSStr) : Request :=
  { method := .delete, path := "/api/resource/" ++ doctype ++ "/" ++ docname.interp,
    params := [], body := none }

/-- Operation `deleteDoc`: issue the DELETE and resolve with the whole response
body `res.data` (no `.data` unwrapping); errors are normalised with the
delete default message. -/
def deleteDoc (t : Transport) (doctype : String) (docname : JSStr := .undef) : DBResult :=
  let resp := t (deleteDocRequest doctype docname)
  if is2xx resp.status then .ok (some resp.body)
  else .error (errorResp resp.body resp.status resp.statusText
    (.str "There was an error while deleting the document."))

/-- Query parameters built by `getCount`: start from
`\x7bdoctype, filters: []\x7d`, add `cache`/`debug` only when the flag
is true, and replace `filters` by its JSON string when a filters
argument was given. -/
def getCountParams (doctype : String) (filters : Option (List DocFilter))
    (cache : Bool) (debug : Bool) : List (String × Option Json) :=
  let params : List (String × Option Json) :=
    [("doctype", some (.str doctype)), ("filters", some (.arr []))]
  let params := if cache then setField params "cache" (some (.bool cache)) else params
  let params := if debug then setField params "debug" (some (.bool debug)) else params
  match filters with
  | some fs => setField params "filters" (some (.str (Json.stringify (filtersToJson fs))))
  | none => params

/-- Request built by `getCount`:
`GET /api/method/frappe.client.get_count` with those parameters. -/
def getCountRequest (doctype : String) (filters : Option (List DocFilter))
    (cache : Bool) (debug : Bool) : Request :=
  { method := .get, path := "/api/method/frappe.client.get_count",
    params := getCountParams doctype filters cache debug, body := none }

/-- Operation `getCount`: issue the GET and resolve with `res.data.message`;
errors are normalised with the count default message. -/
def getCount (t : Transport) (doctype : String) (filters : Option (List DocFilter) := none)
    (cache : Bool := false) (debug : Bool := false) : DBResult :=
  let resp := t (getCountRequest doctype filters cache debug)
  if is2xx resp.status then .ok (resp.body.getField "message")
  else .error (errorResp resp.body resp.status resp.statusText
    (.str "There was an error while getting the count."))

/-- The default query args of `getLastDoc`:
`\x7borderBy: \x7bfield: 'creation', order: 'desc'\x7d\x7d`. -/
def defaultLastDocArgs : GetDocListArgs :=
  { orderBy := some { field := "creation", order := some "desc" } }

/-- JS shallow merge `\x7b...base, ...args\x7d` on the args shape: a
member present in `args` fully replaces the one in `base` (no deep
merge of sub-objects such as `orderBy`). -/
def mergeArgs (base args : GetDocListArgs) : GetDocListArgs :=
  { fields := args.fields <|> base.fields,
    filters := args.filters <|> base.filters,
    orFilters := args.orFilters <|> base.orFilters,
    orderBy := args.orderBy <|> base.orderBy,
    limit := args.limit <|> base.limit,
    limit_start := args.limit_start <|> base.limit_start,
    groupBy := args.groupBy <|> base.groupBy,
    asDict := args.asDict <|> base.asDict }

/-- The args `getLastDoc` passes to `getDocList`: defaults merged with
the caller's args, then `limit: 1` and `fields: ['name']` forced. -/
def getLastDocArgs (args : Option GetDocListArgs) : GetDocListArgs :=
  let queryArgs := defaultLastDocArgs
  let queryArgs :=
    match args with
    | some a => mergeArgs queryArgs a
    | none => queryArgs
  { queryArgs with limit := some 1, fields := some ["name"] }

/-- JS truthiness of `xs.length > 0` on the list-call result: positive
for a non-empty array (or string); `undefined > 0` is false for plain
objects and primitives.  (On an `undefined` result JS would throw a
TypeError reading `.length`; modelled as false, unreachable here.) -/
def jsLengthPos : Option Json → Bool
  | some (.arr l) => decide (0 < l.length)
  | some (.str s) => decide (0 < s.length)
  | _ => false

mutual

/-- Rendering of one array element inside a JS `Array.prototype.join`
(null renders empty there, unlike at top level). -/
def jsJoinElem : Json → String
  | .null => ""
  | .bool b => cond b "true" "false"
  | .num n => toString n
  | .str s => s
  | .arr l => jsJoinElems l
  | .obj _ => "[object Object]"

/-- Comma-joined rendering of a JS array, as `String(array)` gives. -/
def jsJoinElems : List Json → String
  | [] => ""
  | [x] => jsJoinElem x
  | x :: rest => jsJoinElem x ++ "," ++ jsJoinElems rest

end

/-- Template-literal rendering of an arbitrary JS value (as `getDoc`
interpolates the docname handed to it). -/
def jsTemplateStr : Option Json → String
  | none => "undefined"
  | some .null => "null"
  | some (.bool b) => cond b "true" "false"
  | some (.num n) => toString n
  | some (.str s) => s
  | some (.arr l) => jsJoinElems l
  | some (.obj _) => "[object Object]"

/-- Expression `getDocLists[0].name` as it reaches `getDoc`'s template literal. -/
def jsFirstName : Option Json → String
  | some (.arr (x :: _)) => jsTemplateStr (x.getField "name")
  | _ => "undefined"

/-- Operation `getLastDoc`: list with the merged-and-forced args; if the result
is a non-empty list, fetch the full document of its first `name`;
otherwise resolve with the empty object. -/
def getLastDoc (t : Transport) (doctype : String) (args : Option GetDocListArgs := none) : DBResult :=
  match getDocList t doctype (some (getLastDocArgs args)) with
  | .error e => .error e
  | .ok docLists =>
    if jsLengthPos docLists then getDoc t doctype (jsFirstName docLists)
    else .ok (some (.obj []))

/-! Lemmas about association-list lookup and JS-style field override. -/

theorem lookupField_append {α : Type} (a b : List (String × α)) (key : String) :
    lookupField (a ++ b) key = ((lookupField a key).rec (lookupField b key) fun v => some v) := by
  induction a with
  | nil => rfl
  | cons p rest ih =>
    obtain ⟨k, v⟩ := p
    by_cases h : k = key <;> simp [lookupField, h, ih]

theorem lookupField_eraseKey_self {α : Type} (fs : List (String × α)) (key : String) :
    lookupField (eraseKey fs key) key = none := by
  induction fs with
  | nil => rfl
  | cons p rest ih =>
    obtain ⟨k, v⟩ := p
    by_cases h : k = key <;> simp [eraseKey, lookupField, h, ih]

theorem lookupField_eraseKey_other {α : Type} (fs : List (String × α)) {key key' : String}
    (h : key' ≠ key) :
    lookupField (eraseKey fs key) key' = lookupField fs key' := by
  induction fs with
  | nil => rfl
  | cons p rest ih =>
    obtain ⟨k, v⟩ := p
    by_cases hk : k = key
    · subst hk
      simp [eraseKey, lookupField, Ne.symm h, ih]
    · by_cases hk' : k = key' <;> simp [eraseKey, lookupField, hk, hk', h, ih]

theorem lookupField_setField_same {α : Type} (fs : List (String × α)) (key : String) (v : α) :
    lookupField (setField fs key v) key = some v := by
  rw [setField, lookupField_append, lookupField_eraseKey_self]
  simp [lookupField]

theorem lookupField_setField_other {α : Type} (fs : List (String × α)) {key key' : String} (v : α)
    (h : key' ≠ key) :
    lookupField (setField fs key v) key' = lookupField fs key' := by
  rw [setField, lookupField_append, lookupField_eraseKey_other fs h]
  cases hl : lookupField fs key' <;> simp [lookupField, Ne.symm h]

/-- Spec-side description of a rejected operation (§7 of the spec): the
rejection value is the server's error body shallow-merged with the
client-computed `httpStatus`, `httpStatusText`, `message` and
`exception` fields, the latter preferring the server's `exception`,
then `exc_type`, then the empty string. -/
def ErrorShapeSpec (result : DBResult) (fs : List (String × Json)) (status : Nat)
    (statusText : String) (message : Json) : Prop :=
  ∃ e, result = .error e
    ∧ e.getField "httpStatus" = some (.num status)
    ∧ e.getField "httpStatusText" = some (.str statusText)
    ∧ e.getField "message" = some message
    ∧ e.getField "exception" =
        some (jsCoalesce (lookupField fs "exception") (jsCoalesce (lookupField fs "exc_type") (.str "")))
    ∧ ∀ key, key ≠ "httpStatus" → key ≠ "httpStatusText" → key ≠ "message" → key ≠ "exception" →
        e.getField key = lookupField fs key

theorem errorShapeSpec_errorResp (fs : List (String × Json)) (status : Nat)
    (statusText : String) (message : Json) :
    ErrorShapeSpec (.error (errorResp (.obj fs) status statusText message)) fs status statusText message := by
  refine ⟨errorResp (.obj fs) status statusText message, rfl, ?_, ?_, ?_, ?_, ?_⟩
  · show lookupField _ "httpStatus" = _
    rw [lookupField_setField_other _ _ (by decide), lookupField_setField_other _ _ (by decide),
      lookupField_setField_other _ _ (by decide), lookupField_setField_same]
  · show lookupField _ "httpStatusText" = _
    rw [lookupField_setField_other _ _ (by decide), lookupField_setField_other _ _ (by decide),
      lookupField_setField_same]
  · show lookupField _ "message" = _
    rw [lookupField_setField_other _ _ (by decide), lookupField_setField_same]
  · show lookupField _ "exception" = _
    rw [lookupField_setField_same]
    simp [Json.getField]
  · intro key h1 h2 h3 h4
    show lookupField _ key = _
    rw [lookupField_setField_other _ _ h4, lookupField_setField_other _ _ h3,
      lookupField_setField_other _ _ h2, lookupField_setField_other _ _ h1]
    rfl

/-! Claim theorems. -/

/-- C3 counterexample: `updateDoc` with a null docname does not produce
an empty trailing URL segment; the template literal renders `null` as
the string "null" (and an omitted docname in `deleteDoc` as
"undefined"), so the path is `/api/resource/Task/null`, not
`/api/resource/Task/`. -/
theorem claim_C3_counterexample :
    (updateDocRequest "Task" .jsnull (.obj [])).path = "/api/resource/Task/null"
    ∧ (deleteDocRequest "Task" .undef).path = "/api/resource/Task/undefined"
    ∧ (deleteDocRequest "Task" .jsnull).path = "/api/resource/Task/null"
    ∧ (updateDocRequest "Task" .jsnull (.obj [])).path ≠ "/api/resource/Task/" := by
  refine ⟨rfl, rfl, rfl, ?_⟩
  decide

/-- C3 (amended): for every doctype, `updateDoc` with a null docname
and `deleteDoc` with a null or omitted docname issue their request to
`/api/resource/doctype/seg` where the trailing segment `seg` is the
template-literal rendering of the value: "null" for null and
"undefined" for an omitted argument (JS `undefined`) — not an empty
segment. -/
theorem claim_C3_amended (dt : String) (v : Json) :
    (updateDocRequest dt .jsnull v).path = "/api/resource/" ++ dt ++ "/" ++ "null"
    ∧ (deleteDocRequest dt .jsnull).path = "/api/resource/" ++ dt ++ "/" ++ "null"
    ∧ (deleteDocRequest dt .undef).path = "/api/resource/" ++ dt ++ "/" ++ "undefined" :=
  ⟨rfl, rfl, rfl⟩

/-- C6: on any 2xx response, `deleteDoc` resolves to the raw response
body unmodified (in particular a body `message: ok` resolves to exactly
that object), while the other five operations unwrap a field: `data`
for the resource operations, `message` for the count. -/
theorem claim_C6 (resp : Response) (dt dn2 : String) (dn : JSStr) (v : Json)
    (flt : Option (List DocFilter)) (c d : Bool) (args : Option GetDocListArgs)
    (hs : is2xx resp.status = true) :
    deleteDoc (fun _ => resp) dt dn = .ok (some resp.body)
    ∧ getDoc (fun _ => resp) dt dn2 = .ok (resp.body.getField "data")
    ∧ getDocList (fun _ => resp) dt args = .ok (resp.body.getField "data")
    ∧ createDoc (fun _ => resp) dt v = .ok (resp.body.getField "data")
    ∧ updateDoc (fun _ => resp) dt dn v = .ok (resp.body.getField "data")
    ∧ getCount (fun _ => resp) dt flt c d = .ok (resp.body.getField "message")
    ∧ deleteDoc (fun _ => ⟨200, "OK", .obj [("message", .str "ok")]⟩) dt dn
        = .ok (some (.obj [("message", .str "ok")])) := by
  refine ⟨?_, ?_, ?_, ?_, ?_, ?_, rfl⟩ <;>
    simp [deleteDoc, getDoc, getDocList, createDoc, updateDoc, getCount, hs]

/-- C6 witness: evaluated at a concrete 200 response with body
`message: ok`, `deleteDoc` resolves to exactly that body. -/
theorem claim_C6_witness :
    deleteDoc (fun _ => ⟨200, "OK", .obj [("message", .str "ok")]⟩) "ToDo" (.str "T1")
      = .ok (some (.obj [("message", .str "ok")])) :=
  (claim_C6 ⟨200, "OK", .obj [("message", .str "ok")]⟩ "ToDo" "T1" (.str "T1") (.obj [])
    none false false none rfl).1

/-- C7: whenever the internal `getDocList` call of `getLastDoc`
resolves with an empty list, `getLastDoc` resolves to the empty object
(neither a rejection nor null). -/
theorem claim_C7 (t : Transport) (dt : String) (args : Option GetDocListArgs)
    (h : getDocList t dt (some (getLastDocArgs args)) = .ok (some (.arr []))) :
    getLastDoc t dt args = .ok (some (.obj [])) := by
  simp [getLastDoc, h, jsLengthPos]

/-- C7 witness: with a transport whose list response carries
`data: []`, `getLastDoc` resolves to the empty object. -/
theorem claim_C7_witness :
    getLastDoc (fun _ => ⟨200, "OK", .obj [("data", .arr [])]⟩) "Task" none
      = .ok (some (.obj [])) :=
  claim_C7 (fun _ => ⟨200, "OK", .obj [("data", .arr [])]⟩) "Task" none rfl

/-- C8: `createDoc` issues a POST to `/api/resource/doctype` whose body
is the document's own fields at top level with no wrapping key (in
particular a value with a single field `subject: X` is sent exactly as
that one-field object), and on any 2xx response it resolves to the
`data` field of the response body. -/
theorem claim_C8 (dt : String) (fs : List (String × Json)) (v : Json) (resp : Response)
    (hs : is2xx resp.status = true) :
    (createDocRequest dt (.obj fs)).method = .post
    ∧ (createDocRequest dt (.obj fs)).path = "/api/resource/" ++ dt
    ∧ (createDocRequest dt (.obj fs)).body = some (.obj fs)
    ∧ (createDocRequest "Task" (.obj [("subject", .str "X")])).body
        = some (.obj [("subject", .str "X")])
    ∧ createDoc (fun _ => resp) dt v = .ok (resp.body.getField "data") := by
  refine ⟨rfl, rfl, rfl, rfl, ?_⟩
  simp [createDoc, hs]

/-- C8 witness: a concrete creation round-trip; the POST body is the
bare one-field object and the call resolves to the response's `data`. -/
theorem claim_C8_witness :
    createDoc (fun _ => ⟨200, "OK", .obj [("data", .obj [("subject", .str "X"), ("name", .str "T1")])]⟩)
      "Task" (.obj [("subject", .str "X")])
      = .ok (some (.obj [("subject", .str "X"), ("name", .str "T1")])) :=
  (claim_C8 "Task" [("subject", .str "X")] (.obj [("subject", .str "X")])
    ⟨200, "OK", .obj [("data", .obj [("subject", .str "X"), ("name", .str "T1")])]⟩ rfl).2.2.2.2

/-- C9: when `args` is given but contains no `orderBy`, the query
parameter set of `getDocList` still binds the key `order_by`, to the
empty string, while absent `fields`/`filters`/`orFilters` keys are
bound to the JS `undefined` value (and hence dropped by axios). -/
theorem claim_C9 (args : GetDocListArgs) (h : args.orderBy = none) :
    lookupField (getDocListParams (some args)) "order_by" = some (some (.str ""))
    ∧ (args.fields = none → lookupField (getDocListParams (some args)) "fields" = some none)
    ∧ (args.filters = none → lookupField (getDocListParams (some args)) "filters" = some none)
    ∧ (args.orFilters = none →
        lookupField (getDocListParams (some args)) "or_filters" = some none) := by
  refine ⟨?_, fun h2 => ?_, fun h3 => ?_, fun h4 => ?_⟩ <;>
    simp [getDocListParams, lookupField, h, *]

/-- C9 witness: with empty args, `order_by` is bound to the empty
string while `fields` is bound to `undefined`. -/
theorem claim_C9_witness :
    lookupField (getDocListParams (some {})) "order_by" = some (some (.str ""))
    ∧ lookupField (getDocListParams (some {})) "fields" = some none :=
  ⟨(claim_C9 {} rfl).1, (claim_C9 {} rfl).2.1 rfl⟩

/-- C5: when `args` contain an `orderBy`, the `order_by` query
parameter of `getDocList` is the single string "field direction", with
the direction defaulting to "asc" when `order` is omitted (so
`orderBy.field = age` alone yields "age asc"); `fields`, `filters` and
`orFilters`, when present, are sent JSON-stringified. -/
theorem claim_C5 (args : GetDocListArgs) (ob : OrderByArg) (h : args.orderBy = some ob) :
    lookupField (getDocListParams (some args)) "order_by"
      = some (some (.str (ob.field ++ " " ++ ob.order.getD "asc")))
    ∧ (∀ fl, args.fields = some fl →
        lookupField (getDocListParams (some args)) "fields"
          = some (some (.str (Json.stringify (fieldsToJson fl)))))
    ∧ (∀ fs, args.filters = some fs →
        lookupField (getDocListParams (some args)) "filters"
          = some (some (.str (Json.stringify (filtersToJson fs)))))
    ∧ (∀ os, args.orFilters = some os →
        lookupField (getDocListParams (some args)) "or_filters"
          = some (some (.str (Json.stringify (filtersToJson os)))))
    ∧ lookupField (getDocListParams (some { orderBy := some ⟨"age", none⟩ })) "order_by"
      = some (some (.str "age asc")) := by
  refine ⟨?_, fun fl h2 => ?_, fun fs h3 => ?_, fun os h4 => ?_, rfl⟩ <;>
    simp [getDocListParams, lookupField, h, *]

/-- C5 witness: concrete args exercising all four marshalled keys. -/
theorem claim_C5_witness :
    lookupField (getDocListParams (some {
        orderBy := some ⟨"age", none⟩,
        fields := some ["name", "age"],
        filters := some [("age", ">", (.num 20))],
        orFilters := some [("status", "=", (.str "Open"))] })) "order_by"
      = some (some (.str "age asc"))
    ∧ lookupField (getDocListParams (some {
        orderBy := some ⟨"age", none⟩,
        fields := some ["name", "age"],
        filters := some [("age", ">", (.num 20))],
        orFilters := some [("status", "=", (.str "Open"))] })) "fields"
      = some (some (.str "[\"name\",\"age\"]")) := by
  have h := claim_C5 {
    orderBy := some ⟨"age", none⟩,
    fields := some ["name", "age"],
    filters := some [("age", ">", (.num 20))],
    orFilters := some [("status", "=", (.str "Open"))] }
    ⟨"age", none⟩ rfl
  exact ⟨h.1, h.2.1 ["name", "age"] rfl⟩

/-- C4: `getCount` with no filters binds the `filters` query parameter
to the (raw) JSON empty array and leaves the `cache`/`debug` keys out
entirely; with the flags true it binds `cache` and `debug` to true;
provided filters are sent JSON-stringified; and on any 2xx response the
call resolves to the `message` field of the body. -/
theorem claim_C4 (dt : String) (fs : List DocFilter) (c d : Bool)
    (flt : Option (List DocFilter)) (resp : Response)
    (hs : is2xx resp.status = true) :
    lookupField (getCountParams dt none false false) "filters" = some (some (.arr []))
    ∧ lookupField (getCountParams dt none false false) "cache" = none
    ∧ lookupField (getCountParams dt none false false) "debug" = none
    ∧ lookupField (getCountParams dt none true true) "cache" = some (some (.bool true))
    ∧ lookupField (getCountParams dt none true true) "debug" = some (some (.bool true))
    ∧ lookupField (getCountParams dt (some fs) c d) "filters"
        = some (some (.str (Json.stringify (filtersToJson fs))))
    ∧ getCount (fun _ => resp) dt flt c d = .ok (resp.body.getField "message") := by
  refine ⟨rfl, rfl, rfl, rfl, rfl, ?_, ?_⟩
  · simp only [getCountParams]
    rw [lookupField_setField_same]
  · simp [getCount, hs]

/-- C4 witness: a concrete count call with no filters and flags off,
and its resolution to the numeric `message`. -/
theorem claim_C4_witness :
    lookupField (getCountParams "Task" none false false) "filters" = some (some (.arr []))
    ∧ lookupField (getCountParams "Task" none false false) "cache" = none
    ∧ getCount (fun _ => ⟨200, "OK", .obj [("message", .num 42)]⟩) "Task" none false false
        = .ok (some (.num 42)) := by
  have h := claim_C4 "Task" [] false false none ⟨200, "OK", .obj [("message", .num 42)]⟩ rfl
  exact ⟨h.1, h.2.1, h.2.2.2.2.2.2⟩

/-- C2: `getLastDoc` passes `getDocList` the default
`orderBy = (creation, desc)` shallow-merged with the caller's args — a
caller-supplied `orderBy` fully replaces the default — with `limit = 1`
and `fields = [name]` forced over anything the caller set; when the
resulting list is non-empty it fetches the full document of the first
result's name via `getDoc` and resolves with it. -/
theorem claim_C2 (t : Transport) (dt : String) (args : GetDocListArgs) :
    getLastDocArgs none
      = { orderBy := some ⟨"creation", some "desc"⟩, limit := some 1, fields := some ["name"] }
    ∧ getLastDocArgs (some args)
      = { args with
            orderBy := (args.orderBy <|> some ⟨"creation", some "desc"⟩),
            limit := some 1, fields := some ["name"] }
    ∧ (∀ opt, getLastDoc t dt opt
        = match getDocList t dt (some (getLastDocArgs opt)) with
          | .error e => .error e
          | .ok docs =>
            if jsLengthPos docs then getDoc t dt (jsFirstName docs)
            else .ok (some (.obj [])))
    ∧ (∀ nm rest, getDocList t dt (some (getLastDocArgs (some args)))
          = .ok (some (.arr (.obj [("name", .str nm)] :: rest))) →
        getLastDoc t dt (some args) = getDoc t dt nm) := by
  refine ⟨rfl, ?_, fun opt => rfl, fun nm rest h => ?_⟩
  · simp [getLastDocArgs, mergeArgs, defaultLastDocArgs]
  · simp [getLastDoc, h, jsLengthPos, jsFirstName, jsTemplateStr, Json.getField, lookupField]

/-- Transport used to exercise `getLastDoc` end to end: the list
request finds one hit named TASK-1, the document request returns the
full document. -/
def sampleLastDocTransport : Transport := fun r =>
  if r.path = "/api/resource/Task"
  then ⟨200, "OK", .obj [("data", .arr [.obj [("name", .str "TASK-1")]])]⟩
  else ⟨200, "OK", .obj [("data", .obj [("name", .str "TASK-1"), ("subject", .str "Write spec")])]⟩

/-- C2 witness: on that transport, `getLastDoc` resolves to what
`getDoc` of the first (and only) listed name resolves to. -/
theorem claim_C2_witness :
    getLastDoc sampleLastDocTransport "Task" (some {})
      = getDoc sampleLastDocTransport "Task" "TASK-1" :=
  (claim_C2 sampleLastDocTransport "Task" {}).2.2.2 "TASK-1" [] rfl

/-- The simulated not-found transport of the spec's test scenario: every
request gets a 404 whose body only carries `exc_type`. -/
def notFoundTransport : Transport :=
  fun _ => ⟨404, "NOT FOUND", .obj [("exc_type", .str "DoesNotExistError")]⟩

/-- Spec-side description of the 404 test scenario's expected rejection:
httpStatus 404, exception "DoesNotExistError", and the given default
message. -/
def Rejects404 (result : DBResult) (msg : String) : Prop :=
  ∃ e, result = .error e
    ∧ e.getField "httpStatus" = some (.num 404)
    ∧ e.getField "exception" = some (.str "DoesNotExistError")
    ∧ e.getField "message" = some (.str msg)

/-- C1: on every non-2xx response with JSON object body, each of the
six operations rejects with the server's error body shallow-merged with
the client-computed `httpStatus`, `httpStatusText`, `message`
(operation default, except that create/update prefer the server's own
`message`) and `exception` (server `exception`, else `exc_type`, else
empty string); in particular, on a 404 whose body is
`exc_type: DoesNotExistError`, each read operation rejects with
httpStatus 404, exception "DoesNotExistError" and its default message. -/
theorem claim_C1 (st : Nat) (sx : String) (fs : List (String × Json)) (dt dn : String)
    (dn2 : JSStr) (v : Json) (flt : Option (List DocFilter)) (c d : Bool)
    (args : Option GetDocListArgs)
    (hs : is2xx st = false) :
    (ErrorShapeSpec (getDoc (fun _ => ⟨st, sx, .obj fs⟩) dt dn) fs st sx
        (.str "There was an error while fetching the document.")
      ∧ ErrorShapeSpec (getDocList (fun _ => ⟨st, sx, .obj fs⟩) dt args) fs st sx
        (.str "There was an error while fetching the documents.")
      ∧ ErrorShapeSpec (createDoc (fun _ => ⟨st, sx, .obj fs⟩) dt v) fs st sx
        (jsCoalesce (lookupField fs "message")
          (.str "There was an error while creating the document."))
      ∧ ErrorShapeSpec (updateDoc (fun _ => ⟨st, sx, .obj fs⟩) dt dn2 v) fs st sx
        (jsCoalesce (lookupField fs "message")
          (.str "There was an error while updating the document."))
      ∧ ErrorShapeSpec (deleteDoc (fun _ => ⟨st, sx, .obj fs⟩) dt dn2) fs st sx
        (.str "There was an error while deleting the document.")
      ∧ ErrorShapeSpec (getCount (fun _ => ⟨st, sx, .obj fs⟩) dt flt c d) fs st sx
        (.str "There was an error while getting the count."))
    ∧ (Rejects404 (getDoc notFoundTransport dt dn)
        "There was an error while fetching the document."
      ∧ Rejects404 (getDocList notFoundTransport dt args)
        "There was an error while fetching the documents."
      ∧ Rejects404 (getCount notFoundTransport dt flt c d)
        "There was an error while getting the count.") := by
  constructor
  · refine ⟨?_, ?_, ?_, ?_, ?_, ?_⟩ <;>
      · simp only [getDoc, getDocList, createDoc, updateDoc, deleteDoc, getCount, hs,
          Bool.false_eq_true, if_false]
        exact errorShapeSpec_errorResp fs st sx _
  · refine ⟨⟨_, rfl, rfl, rfl, rfl⟩, ⟨_, rfl, rfl, rfl, rfl⟩, ⟨_, rfl, rfl, rfl, rfl⟩⟩

/-- C1 witness: the shape of the rejection of a concrete fetch against
a concrete 500 response. -/
theorem claim_C1_witness :
    ErrorShapeSpec
      (getDoc (fun _ => ⟨500, "INTERNAL SERVER ERROR", .obj [("message", .str "boom")]⟩) "Task" "T1")
      [("message", .str "boom")] 500 "INTERNAL SERVER ERROR"
      (.str "There was an error while fetching the document.") :=
  (claim_C1 500 "INTERNAL SERVER ERROR" [("message", .str "boom")] "Task" "T1" .jsnull
    (.obj []) none false false none rfl).1.1

/-- Spec-side description of the override property: the rejection value
binds `httpStatus`, `httpStatusText`, `message` and `exception` to the
client-computed values. -/
def OverrideSpec (result : DBResult) (fs : List (String × Json)) (status : Nat)
    (statusText : String) (message : Json) : Prop :=
  ∃ e, result = .error e
    ∧ e.getField "httpStatus" = some (.num status)
    ∧ e.getField "httpStatusText" = some (.str statusText)
    ∧ e.getField "message" = some message
    ∧ e.getField "exception" =
        some (jsCoalesce (lookupField fs "exception") (jsCoalesce (lookupField fs "exc_type") (.str "")))

theorem overrideSpec_errorResp (fs : List (String × Json)) (status : Nat)
    (statusText : String) (message : Json) :
    OverrideSpec (.error (errorResp (.obj fs) status statusText message)) fs status statusText message := by
  obtain ⟨e, h1, h2, h3, h4, h5, _⟩ := errorShapeSpec_errorResp fs status statusText message
  exact ⟨e, h1, h2, h3, h4, h5⟩

/-- C10: the catch-blocks spread the server's body first and write the
client-computed fields after it, so for every non-2xx response — even
one whose body itself binds `httpStatus`, `httpStatusText`, `message`
or `exception` — the thrown object's four fields hold the
client-computed values in all six operations. -/
theorem claim_C10 (st : Nat) (sx : String) (fs : List (String × Json)) (dt dn : String)
    (dn2 : JSStr) (v : Json) (flt : Option (List DocFilter)) (c d : Bool)
    (args : Option GetDocListArgs)
    (hs : is2xx st = false) :
    OverrideSpec (getDoc (fun _ => ⟨st, sx, .obj fs⟩) dt dn) fs st sx
      (.str "There was an error while fetching the document.")
    ∧ OverrideSpec (getDocList (fun _ => ⟨st, sx, .obj fs⟩) dt args) fs st sx
      (.str "There was an error while fetching the documents.")
    ∧ OverrideSpec (createDoc (fun _ => ⟨st, sx, .obj fs⟩) dt v) fs st sx
      (jsCoalesce (lookupField fs "message")
        (.str "There was an error while creating the document."))
    ∧ OverrideSpec (updateDoc (fun _ => ⟨st, sx, .obj fs⟩) dt dn2 v) fs st sx
      (jsCoalesce (lookupField fs "message")
        (.str "There was an error while updating the document."))
    ∧ OverrideSpec (deleteDoc (fun _ => ⟨st, sx, .obj fs⟩) dt dn2) fs st sx
      (.str "There was an error while deleting the document.")
    ∧ OverrideSpec (getCount (fun _ => ⟨st, sx, .obj fs⟩) dt flt c d) fs st sx
      (.str "There was an error while getting the count.") := by
  refine ⟨?_, ?_, ?_, ?_, ?_, ?_⟩ <;>
    · simp only [getDoc, getDocList, createDoc, updateDoc, deleteDoc, getCount, hs,
        Bool.false_eq_true, if_false]
      exact overrideSpec_errorResp fs st sx _

/-- C10 witness: a body that itself binds all four client fields to
junk values still yields the client-computed values in the rejection of
a concrete delete. -/
theorem claim_C10_witness :
    OverrideSpec
      (deleteDoc (fun _ => ⟨403, "FORBIDDEN", .obj
          [("httpStatus", .str "junk"), ("httpStatusText", .num 0),
           ("message", .null), ("exception", .str "PermissionError")]⟩) "Task" (.str "T1"))
      [("httpStatus", .str "junk"), ("httpStatusText", .num 0),
       ("message", .null), ("exception", .str "PermissionError")]
      403 "FORBIDDEN" (.str "There was an error while deleting the document.") :=
  (claim_C10 403 "FORBIDDEN"
    [("httpStatus", .str "junk"), ("httpStatusText", .num 0),
     ("message", .null), ("exception", .str "PermissionError")]
    "Task" "T1" (.str "T1") (.obj []) none false false none rfl).2.2.2.2.1

end FrappeSDK
